import Mathlib

/-
Verification of the shadow-projection pipeline of the arbalete-sunshine
repository (src/geometry.py, src/solar.py, src/parse_city_json.py).

Machine floats are modelled by exact real numbers (ℝ) for the trigonometric
geometry, and by exact rationals (ℚ) for the purely arithmetic table
operations; pandas DataFrames are modelled by lists of records in row order.
-/

open Real

namespace geometry

/-- Python float modulus `x % y` (numpy `%`): `x - y * floor (x / y)`. -/
noncomputable def pymod (x y : ℝ) : ℝ := x - y * ⌊x / y⌋

/-- `geometry.shadow_bearing`: `(azimuth + 180) % 360`. -/
noncomputable def shadow_bearing (azimuth : ℝ) : ℝ := pymod (azimuth + 180) 360

/-- `geometry.shadow_length`: `height / np.tan(np.radians(solar_elevation))`. -/
noncomputable def shadow_length (solar_elevation : ℝ) (height : ℝ) : ℝ :=
  height / Real.tan (solar_elevation * π / 180)

/-- numpy `arctan2 y x`: the argument of the complex number `x + y·i`,
in `(-π, π]`, with `arctan2 0 0 = 0`. -/
noncomputable def arctan2 (y x : ℝ) : ℝ := Complex.arg (Complex.ofReal x + Complex.ofReal y * Complex.I)

/-- `geometry.translate_point`: spherical direct geodesic with Earth radius
6371000 m; degrees in, degrees out. -/
noncomputable def translate_point (lat long length bearing : ℝ) : ℝ × ℝ :=
  let latr := lat * π / 180
  let longr := long * π / 180
  let bearingr := bearing * π / 180
  let R : ℝ := 6371000
  let frac_distance := length / R
  let lat2 := Real.arcsin (Real.sin latr * Real.cos frac_distance +
      Real.cos latr * Real.sin frac_distance * Real.cos bearingr)
  let long2 := longr + arctan2 (Real.sin bearingr * Real.sin frac_distance * Real.cos latr)
      (Real.cos frac_distance - Real.sin latr * Real.sin lat2)
  (lat2 * 180 / π, long2 * 180 / π)

end geometry

namespace geometry

lemma pymod_floor (x y : ℝ) : pymod x y = x - y * ⌊x / y⌋ := rfl

lemma pymod_nonneg (x : ℝ) {y : ℝ} (hy : 0 < y) : 0 ≤ pymod x y := by
  have h := Int.floor_le (x / y)
  have : (⌊x / y⌋ : ℝ) * y ≤ x / y * y := by
    exact mul_le_mul_of_nonneg_right h (le_of_lt hy)
  rw [div_mul_cancel₀ x (ne_of_gt hy)] at this
  unfold pymod
  nlinarith

lemma pymod_lt (x : ℝ) {y : ℝ} (hy : 0 < y) : pymod x y < y := by
  have h := Int.lt_floor_add_one (x / y)
  have : x / y * y < ((⌊x / y⌋ : ℝ) + 1) * y := by
    exact mul_lt_mul_of_pos_right h hy
  rw [div_mul_cancel₀ x (ne_of_gt hy)] at this
  unfold pymod
  nlinarith

lemma pymod_add_right (x y : ℝ) (hy : y ≠ 0) : pymod (x + y) y = pymod x y := by
  unfold pymod
  have h1 : (x + y) / y = x / y + 1 := by field_simp
  rw [h1]
  have h2 : ⌊x / y + 1⌋ = ⌊x / y⌋ + 1 := by
    have h3 := Int.floor_add_int (x / y) 1
    push_cast at h3
    exact h3
  rw [h2]
  push_cast
  ring

end geometry

/-- C4: `shadow_bearing a` equals `(a + 180) mod 360`, i.e. it differs from
`a + 180` by `360·⌊(a+180)/360⌋` and lies in `[0, 360)`, and `shadow_bearing`
is periodic with period 360. -/
theorem C4_shadow_bearing_mod_and_periodic (a : ℝ) :
    geometry.shadow_bearing a = (a + 180) - 360 * ⌊(a + 180) / 360⌋ ∧
    0 ≤ geometry.shadow_bearing a ∧ geometry.shadow_bearing a < 360 ∧
    geometry.shadow_bearing (a + 360) = geometry.shadow_bearing a := by
  refine ⟨rfl, geometry.pymod_nonneg _ (by norm_num), geometry.pymod_lt _ (by norm_num), ?_⟩
  unfold geometry.shadow_bearing
  have : a + 360 + 180 = (a + 180) + 360 := by ring
  rw [this, geometry.pymod_add_right _ _ (by norm_num)]

namespace geometry

/-- numpy float division observed at the level of definedness: an ordinary
real result when the divisor is nonzero, and `none` when the divisor is
exactly zero — numpy computes `0.0/0.0` as NaN and `x/0.0` as ±inf, in
either case not the ordinary number `x / y`. -/
noncomputable def float_div (x y : ℝ) : Option ℝ :=
  if y = 0 then none else some (x / y)

/-- `geometry.shadow_length` with numpy's division-by-zero behaviour kept
explicit: `height / np.tan(np.radians(solar_elevation))`, which is an
ordinary number exactly when the tangent is nonzero. -/
noncomputable def shadow_length_float (solar_elevation : ℝ) (height : ℝ) : Option ℝ :=
  float_div height (Real.tan (solar_elevation * π / 180))

lemma shadow_length_float_eq_some {e h : ℝ} (ht : Real.tan (e * π / 180) ≠ 0) :
    shadow_length_float e h = some (shadow_length e h) := by
  unfold shadow_length_float float_div shadow_length
  rw [if_neg ht]

end geometry

/-- C6 is false on the code at elevation exactly 0 and height 0:
`np.tan(np.radians(0.0))` is exactly 0, so the code computes `0.0/0.0`,
which is NaN — not the number 0. -/
theorem C6_counterexample_zero_elevation_nan :
    geometry.shadow_length_float 0 0 = none ∧
      geometry.shadow_length_float 0 0 ≠ some 0 := by
  have htan : Real.tan ((0 : ℝ) * π / 180) = 0 := by
    rw [show (0 : ℝ) * π / 180 = 0 by ring, Real.tan_zero]
  unfold geometry.shadow_length_float geometry.float_div
  rw [htan, if_pos rfl]
  exact ⟨rfl, Option.noConfusion⟩

/-- C6 (amended): when the height above ground is 0 the computed shadow
length is the number 0 at every elevation whose tangent (of the radian
value) is nonzero; at elevations where the tangent is exactly 0 — e.g.
elevation 0.0 — the code computes 0.0/0.0 = NaN instead of 0. -/
theorem C6_amended_zero_height_away_from_tan_zero (e : ℝ)
    (ht : Real.tan (e * π / 180) ≠ 0) :
    geometry.shadow_length_float e 0 = some 0 := by
  rw [geometry.shadow_length_float_eq_some ht]
  unfold geometry.shadow_length
  rw [zero_div]

/-- Witness for the amended C6 at elevation 45. -/
theorem C6_amended_zero_height_away_from_tan_zero_witness :
    geometry.shadow_length_float 45 0 = some 0 :=
  C6_amended_zero_height_away_from_tan_zero 45 (by
    rw [show (45 : ℝ) * π / 180 = π / 4 by ring, Real.tan_pi_div_four]
    norm_num)

namespace geometry

lemma radians_lt_pi_div_two {e : ℝ} (he : e < 90) : e * π / 180 < π / 2 := by
  have hπ : 0 < π := Real.pi_pos
  nlinarith

lemma radians_pos {e : ℝ} (he : 0 < e) : 0 < e * π / 180 := by
  have hπ : 0 < π := Real.pi_pos
  positivity

lemma tan_radians_pos {e : ℝ} (h0 : 0 < e) (h90 : e < 90) :
    0 < Real.tan (e * π / 180) :=
  Real.tan_pos_of_pos_of_lt_pi_div_two (radians_pos h0) (radians_lt_pi_div_two h90)

lemma shadow_length_at_90 (h : ℝ) : shadow_length 90 h = 0 := by
  unfold shadow_length
  have : (90 : ℝ) * π / 180 = π / 2 := by ring
  rw [this, Real.tan_pi_div_two, div_zero]

end geometry

/-- C5: for height `h ≥ 0` and elevations in `(0, 90]`, the shadow length is
non-negative, and it is monotonically decreasing in the elevation for fixed
height. -/
theorem C5_shadow_length_nonneg_antitone (h e₁ e₂ : ℝ) (hh : 0 ≤ h) :
    (0 < e₁ → e₁ ≤ 90 → 0 ≤ geometry.shadow_length e₁ h) ∧
    (0 < e₁ → e₁ < e₂ → e₂ ≤ 90 →
      geometry.shadow_length e₂ h ≤ geometry.shadow_length e₁ h) := by
  constructor
  · intro h0 h90
    rcases eq_or_lt_of_le h90 with heq | hlt
    · rw [heq, geometry.shadow_length_at_90]
    · exact div_nonneg hh (le_of_lt (geometry.tan_radians_pos h0 hlt))
  · intro h0 hlt h90
    rcases eq_or_lt_of_le h90 with heq | hlt90
    · rw [heq, geometry.shadow_length_at_90]
      exact div_nonneg hh (le_of_lt (geometry.tan_radians_pos h0 (by linarith)))
    · have h1 : 0 < Real.tan (e₁ * π / 180) := geometry.tan_radians_pos h0 (by linarith)
      have h2 : Real.tan (e₁ * π / 180) ≤ Real.tan (e₂ * π / 180) := by
        have hπ : 0 < π := Real.pi_pos
        apply le_of_lt
        apply Real.strictMonoOn_tan
        · constructor
          · nlinarith [geometry.radians_pos h0]
          · exact geometry.radians_lt_pi_div_two (by linarith)
        · constructor
          · nlinarith [geometry.radians_pos (lt_trans h0 hlt)]
          · exact geometry.radians_lt_pi_div_two hlt90
        · nlinarith
      unfold geometry.shadow_length
      gcongr

namespace geometry

lemma arctan2_zero_of_nonneg {x : ℝ} (hx : 0 ≤ x) : arctan2 0 x = 0 := by
  unfold arctan2
  rw [Complex.ofReal_zero, zero_mul, add_zero]
  exact Complex.arg_ofReal_of_nonneg hx

end geometry

/-- C7: translating a point by distance 0 returns the starting point, for
every latitude in [-90, 90], every longitude and every bearing. -/
theorem C7_translate_point_zero_distance (lat long bearing : ℝ)
    (hlo : -90 ≤ lat) (hhi : lat ≤ 90) :
    geometry.translate_point lat long 0 bearing = (lat, long) := by
  have hπ : 0 < π := Real.pi_pos
  have harc : Real.arcsin (Real.sin (lat * π / 180)) = lat * π / 180 :=
    Real.arcsin_sin (by nlinarith) (by nlinarith)
  have hsin : 0 ≤ 1 - Real.sin (lat * π / 180) * Real.sin (lat * π / 180) := by
    nlinarith [Real.sin_le_one (lat * π / 180), Real.neg_one_le_sin (lat * π / 180)]
  simp only [geometry.translate_point, zero_div, Real.sin_zero, Real.cos_zero,
    mul_zero, zero_mul, mul_one, add_zero, sub_zero, harc]
  rw [geometry.arctan2_zero_of_nonneg hsin, Prod.mk.injEq]
  constructor
  · field_simp
  · field_simp

/-- Witness for C7 at latitude 46, longitude 6, bearing 123. -/
theorem C7_translate_point_zero_distance_witness :
    geometry.translate_point 46 6 0 123 = (46, 6) :=
  C7_translate_point_zero_distance 46 6 123 (by norm_num) (by norm_num)

/-- Witness for C5 at height 1 and elevations 30 < 60. -/
theorem C5_shadow_length_nonneg_antitone_witness :
    0 ≤ geometry.shadow_length 30 1 ∧
      geometry.shadow_length 60 1 ≤ geometry.shadow_length 30 1 := by
  refine ⟨?_, ?_⟩
  · exact (C5_shadow_length_nonneg_antitone 1 30 60 (by norm_num)).1
      (by norm_num) (by norm_num)
  · exact (C5_shadow_length_nonneg_antitone 1 30 60 (by norm_num)).2
      (by norm_num) (by norm_num) (by norm_num)

namespace solar

/-- The solar-positions table for `solar.get_sunlit_times`, reduced to what the
function reads: the row index (timestamps, encoded as naturals in table order)
paired with the `elevation` column value of each row. -/
def get_sunlit_times (rows : List (ℕ × ℚ)) (morning_threshold evening_threshold : ℚ) :
    Option ℕ × Option ℕ :=
  let first_sunlit_df := rows.filter (fun r => morning_threshold < r.2)
  let first_ray := first_sunlit_df.head?.map Prod.fst
  let last_sunlit_df := rows.filter (fun r => evening_threshold < r.2)
  let last_ray := last_sunlit_df.getLast?.map Prod.fst
  (first_ray, last_ray)

/-- A pandas DataFrame as read by `get_sunlit_times`: an index of timestamps
and named columns of rationals. -/
structure DataFrame where
  index : List ℕ
  columns : List (String × List ℚ)

/-- Column lookup, `df["name"]`. -/
def getColumn (df : DataFrame) (name : String) : Option (List ℚ) :=
  (df.columns.find? (fun c => c.1 == name)).map Prod.snd

/-- `solar.get_sunlit_times` including its `ValueError` path: raising is
modelled by `Except.error`. -/
def get_sunlit_timesE (df : DataFrame) (morning_threshold evening_threshold : ℚ) :
    Except String (Option ℕ × Option ℕ) :=
  match getColumn df "elevation" with
  | none => Except.error "Solar positions DataFrame must contain an elevation column."
  | some elev =>
      Except.ok (get_sunlit_times (df.index.zip elev) morning_threshold evening_threshold)

lemma first_ray_eq_some (rows : List (ℕ × ℚ)) (mt et : ℚ) (t : ℕ) :
    (get_sunlit_times rows mt et).1 = some t ↔
      ∃ e pre suf, rows = pre ++ (t, e) :: suf ∧ mt < e ∧ ∀ r ∈ pre, r.2 ≤ mt := by
  unfold get_sunlit_times
  simp only [List.filter_head?, Option.map_eq_some', List.find?_eq_some,
    decide_eq_true_eq, Bool.not_eq_true', decide_eq_false_iff_not, not_lt]
  constructor
  · rintro ⟨⟨t', e⟩, ⟨he, pre, suf, hrows, hpre⟩, ht⟩
    subst ht
    exact ⟨e, pre, suf, hrows, he, hpre⟩
  · rintro ⟨e, pre, suf, hrows, he, hpre⟩
    exact ⟨(t, e), ⟨he, pre, suf, hrows, hpre⟩, rfl⟩

lemma last_ray_eq_some (rows : List (ℕ × ℚ)) (mt et : ℚ) (t : ℕ) :
    (get_sunlit_times rows mt et).2 = some t ↔
      ∃ e pre suf, rows = pre ++ (t, e) :: suf ∧ et < e ∧ ∀ r ∈ suf, r.2 ≤ et := by
  unfold get_sunlit_times
  simp only [List.filter_getLast?, Option.map_eq_some', List.find?_eq_some,
    decide_eq_true_eq, Bool.not_eq_true', decide_eq_false_iff_not, not_lt]
  constructor
  · rintro ⟨⟨t', e⟩, ⟨he, as, bs, hrows, has⟩, ht⟩
    subst ht
    refine ⟨e, bs.reverse, as.reverse, ?_, he, ?_⟩
    · have := congrArg List.reverse hrows
      simpa [List.reverse_append] using this
    · intro r hr
      exact has r (by simpa using hr)
  · rintro ⟨e, pre, suf, hrows, he, hsuf⟩
    refine ⟨(t, e), ⟨he, suf.reverse, pre.reverse, ?_, ?_⟩, rfl⟩
    · rw [hrows]
      simp [List.reverse_append]
    · intro r hr
      exact hsuf r (by simpa using hr)

end solar

/-- C3: the first component of `get_sunlit_times` is the timestamp of the
first row whose elevation strictly exceeds the morning threshold, the second
component is the timestamp of the last row whose elevation strictly exceeds
the evening threshold, and when no row exceeds its threshold the result is
`(none, none)`. -/
theorem C3_get_sunlit_times_first_last (rows : List (ℕ × ℚ)) (mt et : ℚ) :
    (∀ t : ℕ, (solar.get_sunlit_times rows mt et).1 = some t ↔
      ∃ e pre suf, rows = pre ++ (t, e) :: suf ∧ mt < e ∧ ∀ r ∈ pre, r.2 ≤ mt) ∧
    (∀ t : ℕ, (solar.get_sunlit_times rows mt et).2 = some t ↔
      ∃ e pre suf, rows = pre ++ (t, e) :: suf ∧ et < e ∧ ∀ r ∈ suf, r.2 ≤ et) ∧
    ((∀ r ∈ rows, r.2 ≤ mt ∧ r.2 ≤ et) →
      solar.get_sunlit_times rows mt et = (none, none)) := by
  refine ⟨solar.first_ray_eq_some rows mt et, solar.last_ray_eq_some rows mt et, ?_⟩
  intro hall
  unfold solar.get_sunlit_times
  have h1 : rows.filter (fun r => mt < r.2) = [] := by
    rw [List.filter_eq_nil_iff]
    intro r hr
    simpa using not_lt.mpr (hall r hr).1
  have h2 : rows.filter (fun r => et < r.2) = [] := by
    rw [List.filter_eq_nil_iff]
    intro r hr
    simpa using not_lt.mpr (hall r hr).2
  simp [h1, h2]

/-- Witness for C3 on a concrete three-row table: the middle row is the only
one above both thresholds, so it is both the first and the last sunlit time. -/
theorem C3_get_sunlit_times_first_last_witness :
    solar.get_sunlit_times [(0, -5), (1, -1/2), (2, -6)] (-9/10) (-833/1000) =
      (some 1, some 1) := by
  have h := C3_get_sunlit_times_first_last [(0, -5), (1, -1/2), (2, -6)] (-9/10) (-833/1000)
  have hpre : ∀ r ∈ [((0:ℕ), (-5:ℚ))], r.2 ≤ -9/10 := by
    intro r hr
    rw [List.mem_singleton] at hr
    subst hr
    norm_num
  have hsuf : ∀ r ∈ [((2:ℕ), (-6:ℚ))], r.2 ≤ -833/1000 := by
    intro r hr
    rw [List.mem_singleton] at hr
    subst hr
    norm_num
  have h1 := (h.1 1).mpr ⟨-1/2, [(0, -5)], [(2, -6)], rfl, by norm_num, hpre⟩
  have h2 := (h.2.1 1).mpr ⟨-1/2, [(0, -5)], [(2, -6)], rfl, by norm_num, hsuf⟩
  exact Prod.ext h1 h2

/-- C10: modelled `get_sunlit_times` fails (the `ValueError` raise) exactly
when the DataFrame has no `elevation` column, and returns normally whenever
the column is present. -/
theorem C10_get_sunlit_times_error_iff_no_elevation (df : solar.DataFrame) (mt et : ℚ) :
    (∃ msg, solar.get_sunlit_timesE df mt et = Except.error msg) ↔
      "elevation" ∉ df.columns.map Prod.fst := by
  unfold solar.get_sunlit_timesE solar.getColumn
  rcases h : df.columns.find? (fun c => c.1 == "elevation") with _ | c
  · rw [h]
    simp only [Option.map_none']
    constructor
    · intro _ hmem
      rcases List.mem_map.mp hmem with ⟨c, hc, hfst⟩
      have hfalse := List.find?_eq_none.mp h c hc
      simp [hfst] at hfalse
    · intro _
      exact ⟨_, rfl⟩
  · rw [h]
    simp only [Option.map_some']
    constructor
    · rintro ⟨msg, hmsg⟩
      exact Except.noConfusion hmsg
    · intro hmem
      have hc := List.find?_some h
      have hcmem := List.mem_of_find?_eq_some h
      exact absurd (List.mem_map.mpr ⟨c, hcmem, by simpa using hc⟩) hmem

namespace parse_city_json

/-- A row of the solar-position table built by `solar_position`
(`['time', 'egid', 'lat', 'lon', 'elevation', 'azimuth', 'h']`); the time is
encoded as a natural in table order. -/
structure Row where
  time : ℕ
  egid : String
  lat : ℝ
  lon : ℝ
  elevation : ℝ
  azimuth : ℝ
  h : ℝ

/-- A row after `shadow_data_df` added the two shadow columns. -/
structure ShadowRow where
  time : ℕ
  egid : String
  lat : ℝ
  lon : ℝ
  elevation : ℝ
  azimuth : ℝ
  h : ℝ
  shadow_bearing : ℝ
  shadow_length : ℝ

/-- A row after `translate_points_df` added the shadow tip coordinates. -/
structure TransRow where
  time : ℕ
  egid : String
  lat : ℝ
  lon : ℝ
  elevation : ℝ
  azimuth : ℝ
  h : ℝ
  shadow_bearing : ℝ
  shadow_length : ℝ
  shadow_lat : ℝ
  shadow_lon : ℝ

/-- `parse_city_json.shadow_data_df`: adds the `shadow_bearing` and
`shadow_length` columns computed row-wise from `azimuth`, `elevation`, `h`. -/
noncomputable def shadow_data_df (df : List Row) : List ShadowRow :=
  df.map (fun r =>
    ⟨r.time, r.egid, r.lat, r.lon, r.elevation, r.azimuth, r.h,
      geometry.shadow_bearing r.azimuth, geometry.shadow_length r.elevation r.h⟩)

/-- `parse_city_json.translate_points_df`: adds the `shadow_lat` and
`shadow_lon` columns via `translate_point` applied row-wise. -/
noncomputable def translate_points_df (df : List ShadowRow) : List TransRow :=
  df.map (fun r =>
    ⟨r.time, r.egid, r.lat, r.lon, r.elevation, r.azimuth, r.h,
      r.shadow_bearing, r.shadow_length,
      (geometry.translate_point r.lat r.lon r.shadow_length r.shadow_bearing).1,
      (geometry.translate_point r.lat r.lon r.shadow_length r.shadow_bearing).2⟩)

end parse_city_json

/-- C9: `shadow_data_df` and `translate_points_df` preserve the values of all
pre-existing columns in every row and in order; they only append the new
shadow columns. -/
theorem C9_shadow_dfs_preserve_columns (df : List parse_city_json.Row)
    (sdf : List parse_city_json.ShadowRow) :
    ((parse_city_json.shadow_data_df df).map
        (fun r => (r.time, r.egid, r.lat, r.lon, r.elevation, r.azimuth, r.h)) =
      df.map (fun r => (r.time, r.egid, r.lat, r.lon, r.elevation, r.azimuth, r.h))) ∧
    ((parse_city_json.translate_points_df sdf).map
        (fun r => (r.time, r.egid, r.lat, r.lon, r.elevation, r.azimuth, r.h,
          r.shadow_bearing, r.shadow_length)) =
      sdf.map (fun r => (r.time, r.egid, r.lat, r.lon, r.elevation, r.azimuth, r.h,
          r.shadow_bearing, r.shadow_length))) := by
  constructor
  · unfold parse_city_json.shadow_data_df
    rw [List.map_map]
    rfl
  · unfold parse_city_json.translate_points_df
    rw [List.map_map]
    rfl

namespace geometry

/-- Error taxonomy of §7: a malformed input that must fail fast. -/
inductive InputError where
  | degenerate_target : InputError
deriving DecidableEq

/-- Twice the signed shoelace area of a polygon given by its corner list. -/
def shoelace_double (pts : List (ℚ × ℚ)) : ℚ :=
  ((pts.zip (pts.rotate 1)).map (fun pq => pq.1.1 * pq.2.2 - pq.2.1 * pq.1.2)).sum

/-- Absolute polygon area of a corner list (shoelace formula). -/
def polygon_area (pts : List (ℚ × ℚ)) : ℚ := |shoelace_double pts| / 2

/-- Modelled from the spec: the intersection-ratio computation
(`_get_intersection`, the PointSetIntersector of §4.4) is imported from
`src.geometry` by `parse_city_json.py` but is absent from the source tree.
Per §4.4 and §7 it returns `intersection_area / target_polygon_area` clamped
to `[0,1]`, returns ratio 0 when fewer than 3 distinct shadow points are
given, and fails explicitly with an `InputError` on a degenerate (zero-area)
target polygon. The planar hull-intersection area itself is the parameter
`planar_intersection_area`. -/
def intersection_ratio (planar_intersection_area : List (ℚ × ℚ) → List (ℚ × ℚ) → ℚ)
    (shadow_points target_polygon : List (ℚ × ℚ)) : Except InputError ℚ :=
  if polygon_area target_polygon = 0 then
    Except.error InputError.degenerate_target
  else if shadow_points.dedup.length < 3 then
    Except.ok 0
  else
    Except.ok (max 0 (min 1
      (planar_intersection_area shadow_points target_polygon / polygon_area target_polygon)))

end geometry

/-- C2: for every shadow point set and every planar intersection-area
function, applying the intersection-ratio computation to a degenerate
(zero-area) target polygon fails explicitly with an `InputError`; it never
silently returns a number. -/
theorem C2_intersection_ratio_degenerate_target
    (f : List (ℚ × ℚ) → List (ℚ × ℚ) → ℚ) (shadow_points target_polygon : List (ℚ × ℚ))
    (hdeg : geometry.polygon_area target_polygon = 0) :
    geometry.intersection_ratio f shadow_points target_polygon =
      Except.error geometry.InputError.degenerate_target := by
  unfold geometry.intersection_ratio
  rw [if_pos hdeg]

/-- Witness for C2: a target square collapsed to a single point (all 4
corners identical) has zero area and is rejected. -/
theorem C2_intersection_ratio_degenerate_target_witness :
    geometry.intersection_ratio (fun _ _ => 0) [(1, 2), (3, 4), (5, 0)]
        [(0, 0), (0, 0), (0, 0), (0, 0)] =
      Except.error geometry.InputError.degenerate_target :=
  C2_intersection_ratio_degenerate_target _ _ _ (by
    norm_num [geometry.polygon_area, geometry.shoelace_double, List.rotate_cons_succ])

namespace parse_city_json

/-- A row of the terrace table read by `get_interesection_ratios`
(columns `egid`, `lat`, `lon`). -/
structure TRow where
  egid : String
  lat : ℝ
  lon : ℝ

/-- `parse_city_json.get_interesection_ratios`: groups the shadow table by
`(time, egid)` and applies the intersection computation to each group's
shadow tip points against the terrace rows carrying the group's egid. The
ratio component of the imported `_get_intersection` (absent from the source
tree) is the parameter `f`. pandas iterates groups in sorted key order;
groups are listed here in order of first occurrence — the statements below
do not depend on the order of the result rows. -/
def get_interesection_ratios (f : List (ℝ × ℝ) → List (ℝ × ℝ) → ℝ)
    (shadow_df : List TransRow) (terrace_df : List TRow) : List (ℕ × String × ℝ) :=
  let keys := (shadow_df.map (fun r => (r.time, r.egid))).dedup
  keys.map (fun k =>
    (k.1, k.2,
      f ((shadow_df.filter (fun r => (r.time, r.egid) == k)).map
          (fun r => (r.shadow_lat, r.shadow_lon)))
        ((terrace_df.filter (fun r => r.egid == k.2)).map (fun r => (r.lat, r.lon)))))

end parse_city_json

/-- C1 is false on the code: counterexample at solar elevation -45° (sun below
the horizon) and height 10. The pipeline computes the ordinary finite value
-10 as shadow length — no tag and no NaN — and the downstream intersection
computation still produces a result row for that row's `(time, egid)` group
instead of excluding it. -/
theorem C1_counterexample_below_horizon_not_excluded :
    geometry.shadow_length (-45) 10 = -10 ∧
    (parse_city_json.get_interesection_ratios (fun _ _ => 0)
        (parse_city_json.translate_points_df
          (parse_city_json.shadow_data_df [⟨0, "a", 46, 6, -45, 123, 10⟩])) []).map
      (fun x => (x.1, x.2.1)) = [(0, "a")] := by
  constructor
  · unfold geometry.shadow_length
    have h45 : (-45 : ℝ) * π / 180 = -(π / 4) := by ring
    rw [h45, Real.tan_neg, Real.tan_pi_div_four]
    norm_num
  · rfl

/-- C1 (amended): for negative elevations in (-90, 0) and positive height the
pipeline's shadow length is an ordinary finite negative number — nothing is
tagged or set to NaN — and the downstream intersection computation includes
every row's `(time, egid)` group whatever its elevation, excluding nothing. -/
theorem C1_amended_no_marking_no_exclusion (e h : ℝ)
    (he0 : -90 < e) (he1 : e < 0) (hh : 0 < h) :
    geometry.shadow_length e h < 0 ∧
    ∀ (f : List (ℝ × ℝ) → List (ℝ × ℝ) → ℝ)
      (shadow_df : List parse_city_json.TransRow)
      (terrace_df : List parse_city_json.TRow) (r : parse_city_json.TransRow),
      r ∈ shadow_df →
      (r.time, r.egid) ∈
        (parse_city_json.get_interesection_ratios f shadow_df terrace_df).map
          (fun x => (x.1, x.2.1)) := by
  constructor
  · have hm : (0 : ℝ) < -e := by linarith
    have hlt : -e < 90 := by linarith
    have hpos : 0 < Real.tan (-e * π / 180) := geometry.tan_radians_pos hm hlt
    have hneg : Real.tan (e * π / 180) < 0 := by
      have heq : e * π / 180 = -(-e * π / 180) := by ring
      rw [heq, Real.tan_neg]
      linarith
    exact div_neg_of_pos_of_neg hh hneg
  · intro f shadow_df terrace_df r hr
    unfold parse_city_json.get_interesection_ratios
    rw [List.map_map]
    have hcomp : ((fun x : ℕ × String × ℝ => (x.1, x.2.1)) ∘
        (fun k : ℕ × String =>
          ((k.1, k.2,
            f ((shadow_df.filter (fun r => (r.time, r.egid) == k)).map
                (fun r => (r.shadow_lat, r.shadow_lon)))
              ((terrace_df.filter (fun r => r.egid == k.2)).map
                (fun r => (r.lat, r.lon))))))) = id := by
      funext k
      rfl
    rw [hcomp, List.map_id]
    exact List.mem_dedup.mpr (List.mem_map_of_mem _ hr)

/-- Witness for the amended C1 at elevation -45, height 10, and a one-row
shadow table. -/
theorem C1_amended_no_marking_no_exclusion_witness :
    geometry.shadow_length (-45) 10 < 0 ∧
    ((0 : ℕ), "a") ∈
      (parse_city_json.get_interesection_ratios (fun _ _ => 0)
          [⟨0, "a", 46, 6, -45, 123, 10, 258, -10, 46, 6⟩] []).map
        (fun x => (x.1, x.2.1)) := by
  have h := C1_amended_no_marking_no_exclusion (-45) 10 (by norm_num) (by norm_num)
    (by norm_num)
  exact ⟨h.1, h.2 (fun _ _ => 0) [⟨0, "a", 46, 6, -45, 123, 10, 258, -10, 46, 6⟩] []
    ⟨0, "a", 46, 6, -45, 123, 10, 258, -10, 46, 6⟩ (List.mem_singleton.mpr rfl)⟩

namespace parse_city_json

/-- A vertex row produced by `convert_vertices_to_df`
(columns `lat`, `lon`, `z`, `egid`). -/
structure VRow where
  lat : ℚ
  lon : ℚ
  z : ℚ
  egid : String
deriving DecidableEq

/-- A row of the buildings table produced by `process_multiple_buildings`:
a vertex row merged with its building's `min_height`, plus the derived
`h` and `altitude` columns. -/
structure BRow where
  lat : ℚ
  lon : ℚ
  z : ℚ
  egid : String
  min_height : ℚ
  h : ℚ
  altitude : ℚ
deriving DecidableEq

/-- `parse_city_json.convert_vertices_to_df`: reprojects the vertex list with
the (external, pyproj) coordinate transformer and tags every row with the
CityObject key as `egid`. -/
def convert_vertices_to_df (transformer : ℚ × ℚ × ℚ → ℚ × ℚ × ℚ) (key : String)
    (vertex_list : List (ℚ × ℚ × ℚ)) : List VRow :=
  (vertex_list.map transformer).map (fun v => ⟨v.1, v.2.1, v.2.2, key⟩)

/-- pandas `Series.min` on a non-empty column (a group of `z` values). -/
def series_min : List ℚ → ℚ
  | [] => 0
  | x :: xs => xs.foldl min x

/-- `parse_city_json.process_multiple_buildings`: concatenates the
per-building vertex tables, computes the per-egid minimum of `z`
(`groupby('egid')['z'].min()` merged back on `egid`), and derives
`h = z - min_height` and `altitude = min_height` for every row. -/
def process_multiple_buildings (transformer : ℚ × ℚ × ℚ → ℚ × ℚ × ℚ)
    (co_dict : List (String × List (ℚ × ℚ × ℚ))) : List BRow :=
  let dfs := (co_dict.map (fun p => convert_vertices_to_df transformer p.1 p.2)).flatten
  dfs.map (fun r =>
    let min_height := series_min ((dfs.filter (fun s => s.egid == r.egid)).map VRow.z)
    ⟨r.lat, r.lon, r.z, r.egid, min_height, r.z - min_height, min_height⟩)

lemma foldl_min_le_init (as : List ℚ) (a : ℚ) : as.foldl min a ≤ a := by
  induction as generalizing a with
  | nil => exact le_refl a
  | cons b bs ih => exact le_trans (ih (min a b)) (min_le_left a b)

lemma foldl_min_le_mem {as : List ℚ} {x : ℚ} (hx : x ∈ as) (a : ℚ) :
    as.foldl min a ≤ x := by
  induction as generalizing a with
  | nil => cases hx
  | cons b bs ih =>
    rcases List.mem_cons.mp hx with rfl | hx'
    · exact le_trans (foldl_min_le_init bs (min a x)) (min_le_right a x)
    · exact ih hx' (min a b)

lemma series_min_le {l : List ℚ} {x : ℚ} (hx : x ∈ l) : series_min l ≤ x := by
  cases l with
  | nil => cases hx
  | cons a as =>
    rcases List.mem_cons.mp hx with rfl | hx'
    · exact foldl_min_le_init as x
    · exact foldl_min_le_mem hx' a

lemma egid_of_mem_conv {T : ℚ × ℚ × ℚ → ℚ × ℚ × ℚ} {key : String}
    {vs : List (ℚ × ℚ × ℚ)} {r : VRow} (hr : r ∈ convert_vertices_to_df T key vs) :
    r.egid = key := by
  rcases List.mem_map.mp hr with ⟨v, _, rfl⟩
  rfl

lemma filter_conv_self (T : ℚ × ℚ × ℚ → ℚ × ℚ × ℚ) (key : String)
    (vs : List (ℚ × ℚ × ℚ)) :
    (convert_vertices_to_df T key vs).filter (fun s => s.egid == key) =
      convert_vertices_to_df T key vs := by
  rw [List.filter_eq_self]
  intro r hr
  rw [egid_of_mem_conv hr]
  simp

lemma filter_conv_ne (T : ℚ × ℚ × ℚ → ℚ × ℚ × ℚ) (key key' : String)
    (vs : List (ℚ × ℚ × ℚ)) (hne : key ≠ key') :
    (convert_vertices_to_df T key vs).filter (fun s => s.egid == key') = [] := by
  rw [List.filter_eq_nil_iff]
  intro r hr
  rw [egid_of_mem_conv hr]
  simp [hne]

lemma egid_mem_of_mem_dfs {T : ℚ × ℚ × ℚ → ℚ × ℚ × ℚ}
    {qs : List (String × List (ℚ × ℚ × ℚ))} {r : VRow}
    (hr : r ∈ (qs.map (fun p => convert_vertices_to_df T p.1 p.2)).flatten) :
    r.egid ∈ qs.map Prod.fst := by
  rcases List.mem_flatten.mp hr with ⟨l, hl, hrl⟩
  rcases List.mem_map.mp hl with ⟨p, hp, rfl⟩
  rw [egid_of_mem_conv hrl]
  exact List.mem_map_of_mem _ hp

lemma filter_dfs_eq (T : ℚ × ℚ × ℚ → ℚ × ℚ × ℚ) :
    ∀ (co_dict : List (String × List (ℚ × ℚ × ℚ))),
      (co_dict.map Prod.fst).Nodup → ∀ b ∈ co_dict,
      ((co_dict.map (fun p => convert_vertices_to_df T p.1 p.2)).flatten).filter
          (fun s => s.egid == b.1) = convert_vertices_to_df T b.1 b.2 := by
  intro co_dict
  induction co_dict with
  | nil =>
    intro _ b hb
    cases hb
  | cons q qs ih =>
    intro hnd b hb
    rw [List.map_cons] at hnd
    have hnd1 : q.1 ∉ qs.map Prod.fst := (List.nodup_cons.mp hnd).1
    have hnd2 : (qs.map Prod.fst).Nodup := (List.nodup_cons.mp hnd).2
    rw [List.map_cons, List.flatten_cons, List.filter_append]
    rcases List.mem_cons.mp hb with rfl | hb'
    · rw [filter_conv_self]
      have hrest : ((qs.map (fun p => convert_vertices_to_df T p.1 p.2)).flatten).filter
          (fun s => s.egid == b.1) = [] := by
        rw [List.filter_eq_nil_iff]
        intro r hr
        have hmem := egid_mem_of_mem_dfs hr
        simp only [beq_iff_eq, decide_eq_true_eq]
        intro hcontra
        rw [hcontra] at hmem
        exact hnd1 hmem
      rw [hrest, List.append_nil]
    · have hq : (convert_vertices_to_df T q.1 q.2).filter (fun s => s.egid == b.1) = [] := by
        apply filter_conv_ne
        intro hcontra
        apply hnd1
        rw [hcontra]
        exact List.mem_map_of_mem _ hb'
      rw [hq, List.nil_append, ih hnd2 b hb']

end parse_city_json

/-- C8: under distinct building keys (a Python dict), every row of
`process_multiple_buildings` has `h ≥ 0`, rows sharing an egid share one
altitude, and that altitude is the minimum `z` over the building's
(reprojected) vertices. -/
theorem C8_process_multiple_buildings_invariants
    (T : ℚ × ℚ × ℚ → ℚ × ℚ × ℚ) (co_dict : List (String × List (ℚ × ℚ × ℚ)))
    (hnd : (co_dict.map Prod.fst).Nodup) :
    ∀ r ∈ parse_city_json.process_multiple_buildings T co_dict,
      0 ≤ r.h ∧
      (∀ b ∈ co_dict, r.egid = b.1 →
        r.altitude = parse_city_json.series_min ((b.2.map T).map (fun v => v.2.2))) ∧
      (∀ r' ∈ parse_city_json.process_multiple_buildings T co_dict,
        r.egid = r'.egid → r.altitude = r'.altitude) := by
  intro r hr
  simp only [parse_city_json.process_multiple_buildings, List.mem_map] at hr
  obtain ⟨r0, hr0, rfl⟩ := hr
  refine ⟨?_, ?_, ?_⟩
  · have hz : r0.z ∈
        ((((co_dict.map (fun p => parse_city_json.convert_vertices_to_df T p.1 p.2)).flatten).filter
          (fun s => s.egid == r0.egid)).map parse_city_json.VRow.z) :=
      List.mem_map_of_mem _ (List.mem_filter.mpr ⟨hr0, by simp⟩)
    have hle := parse_city_json.series_min_le hz
    show 0 ≤ r0.z - _
    linarith
  · intro b hb hegid
    have hegid' : r0.egid = b.1 := hegid
    show parse_city_json.series_min _ = _
    rw [hegid', parse_city_json.filter_dfs_eq T co_dict hnd b hb]
    have hmapz : (parse_city_json.convert_vertices_to_df T b.1 b.2).map parse_city_json.VRow.z
        = (b.2.map T).map (fun v => v.2.2) := by
      unfold parse_city_json.convert_vertices_to_df
      rw [List.map_map]
      rfl
    rw [hmapz]
  · intro r' hr' hegid
    simp only [parse_city_json.process_multiple_buildings, List.mem_map] at hr'
    obtain ⟨r0', hr0', rfl⟩ := hr'
    have he : r0.egid = r0'.egid := hegid
    show parse_city_json.series_min _ = parse_city_json.series_min _
    rw [he]

/-- Witness for C8 on one building with two vertices at z = 5 and z = 3:
the z = 5 row gets h = 2 and altitude 3. -/
theorem C8_process_multiple_buildings_invariants_witness :
    0 ≤ (⟨0, 0, 5, "a", 3, 2, 3⟩ : parse_city_json.BRow).h := by
  have hmem : (⟨0, 0, 5, "a", 3, 2, 3⟩ : parse_city_json.BRow) ∈
      parse_city_json.process_multiple_buildings (fun v => v) [("a", [(0,0,5), (0,1,3)])] := by
    simp only [parse_city_json.process_multiple_buildings,
      parse_city_json.convert_vertices_to_df, parse_city_json.series_min,
      List.map_cons, List.map_nil, List.flatten_cons, List.flatten_nil,
      List.cons_append, List.nil_append, List.append_nil, List.filter_cons,
      List.filter_nil]
    norm_num [min_def, List.mem_cons]
  exact (C8_process_multiple_buildings_invariants (fun v => v)
    [("a", [(0,0,5), (0,1,3)])] (by decide) ⟨0, 0, 5, "a", 3, 2, 3⟩ hmem).1
